import Mathlib

/-!
Verification development for the website-builder core of the platform API
(`src/page-builder.js`, routes set up by `setupPageBuilderRoutes`, plus the
`page_versions` schema of `migrations/004_website_builder.sql`).

The JSON-like configuration data is embedded as the tagged type `JsonValue`.
JavaScript objects are embedded as association lists in insertion order
(JS object keys are unique; lookup takes the first match).

Embedded directly from the source:
  * `escapeHtml` (page-builder.js lines 640-649): per-character HTML escaping;
  * `escapeBlockConfig` (lines 607-635): the recursive config sanitizer
    (the family `escapeBlockConfig`/`escapeFields`/`escapeArr`/`escapeEntry`/
    `escapeElems`/`escapeElem` below).  Notable JavaScript facts reflected
    here: `typeof null === 'object'` and `typeof [] === 'object'`, and
    `Object.entries` of an array yields decimal-string index keys, so a
    config that is itself an array is rebuilt as a plain object;
  * the registered Handlebars helpers (lines 15-28): the custom `if` helper
    uses raw JS truthiness (`if (conditional)`), the custom `each` helper
    iterates `context[0] .. context[context.length-1]` concatenating
    `options.fn(element)`;
  * `renderBlocks` (lines 558-602) and the per-block scope construction
    (sanitize, then assign `year` and `jsonConfig` onto the sanitized value);
    the file is an ES module, hence strict mode: assigning a property on a
    primitive, `null` or `undefined` throws, which the per-block
    `try`/`catch` turns into the `<!-- Error rendering ... -->` marker;
  * the `PUT /api/pages/:id` handler (lines 293-344): version snapshot
    (`SELECT blocks`, `SELECT MAX(version_number)`, `INSERT page_versions`)
    followed by the `UPDATE pages` query, each an individually
    auto-committed statement (there is no BEGIN/COMMIT in the handler).

Modelled from the spec (section 4.1), because the Handlebars engine itself is
a third-party dependency not part of this repository: the template node tree
(`Template`), variable resolution against a scope stack (`resolveVar`), and
plain-text/variable substitution (`renderT`/`renderTList`).  The two block
helpers executed by that engine are the source-registered ones above.
-/

/-- JSON-like values: the configuration data of a block. -/
inductive JsonValue where
  | str  (s : String)
  | num  (n : Int)
  | bool (b : Bool)
  | null
  | arr  (xs : List JsonValue)
  | obj  (fields : List (String × JsonValue))
deriving Repr

/-- One step of `escapeHtml`: the replacement map of page-builder.js lines
641-647, applied per character (the source uses a global regex replace). -/
def escapeChar (c : Char) : String :=
  if c = '&' then "&amp;"
  else if c = '<' then "&lt;"
  else if c = '>' then "&gt;"
  else if c = '"' then "&quot;"
  else if c = Char.ofNat 39 then "&#039;"
  else String.singleton c

/-- Embeds `escapeHtml` (page-builder.js lines 640-649). -/
def escapeHtml (s : String) : String :=
  String.join (s.data.map escapeChar)

mutual

/-- JavaScript `String(v)` coercion on a `JsonValue` (arrays join their
elements with commas, `null` elements joining as empty, objects print as
`[object Object]`). -/
def jsToString : JsonValue → String
  | .str s => s
  | .num n => toString n
  | .bool b => if b then "true" else "false"
  | .null => "null"
  | .arr xs => jsArrJoin xs
  | .obj _ => "[object Object]"

/-- Comma join of `Array.prototype.toString`. -/
def jsArrJoin : List JsonValue → String
  | [] => ""
  | [v] => jsArrItem v
  | v :: rest => jsArrItem v ++ "," ++ jsArrJoin rest

/-- One joined element: `null` joins as the empty string. -/
def jsArrItem : JsonValue → String
  | .null => ""
  | .str s => s
  | .num n => toString n
  | .bool b => if b then "true" else "false"
  | .arr xs => jsArrJoin xs
  | .obj _ => "[object Object]"

end

mutual

/-- Embeds `escapeBlockConfig` (page-builder.js lines 607-635): a non-object
(string, number, boolean) and `null` are returned unchanged; an object or an
array (both have `typeof === 'object'` in JS) run the `Object.entries` loop
— for an array the entries carry decimal index keys and the result is a
plain object. -/
def escapeBlockConfig : JsonValue → JsonValue
  | .obj fields => .obj (escapeFields fields)
  | .arr xs => .obj (escapeArr 0 xs)
  | v => v

/-- The `Object.entries` loop of `escapeBlockConfig` over an object. -/
def escapeFields : List (String × JsonValue) → List (String × JsonValue)
  | [] => []
  | (k, v) :: rest => (k, escapeEntry k v) :: escapeFields rest

/-- The `Object.entries` loop over an array input: decimal index keys. -/
def escapeArr (i : Nat) : List JsonValue → List (String × JsonValue)
  | [] => []
  | v :: rest => (toString i, escapeEntry (toString i) v) :: escapeArr (i + 1) rest

/-- One entry of the loop (lines 614-631): a string value is escaped unless
the key is exactly `content`; an array value maps its elements through the
item lambda; an object value recurses (`null` also lands in that branch
since `typeof null === 'object'`, and comes back unchanged); other values
pass through. -/
def escapeEntry (k : String) : JsonValue → JsonValue
  | .str s => if k = "content" then .str s else .str (escapeHtml s)
  | .arr xs => .arr (escapeElems xs)
  | .obj fs => .obj (escapeFields fs)
  | .null => .null
  | .num n => .num n
  | .bool b => .bool b

/-- The `value.map(item => ...)` of line 624. -/
def escapeElems : List JsonValue → List JsonValue
  | [] => []
  | v :: rest => escapeElem v :: escapeElems rest

/-- The item lambda (lines 624-626): `typeof item === 'object'` (a plain
object, an array, or `null`) recurses through `escapeBlockConfig`; anything
else becomes `escapeHtml(String(item))`. -/
def escapeElem : JsonValue → JsonValue
  | .obj fs => .obj (escapeFields fs)
  | .arr xs => .obj (escapeArr 0 xs)
  | .null => .null
  | .str s => .str (escapeHtml s)
  | .num n => .str (escapeHtml (toString n))
  | .bool b => .str (escapeHtml (if b then "true" else "false"))

end

mutual

/-- The reference sanitizer of claim C2, as worded there: on an object,
string values are escaped except under the exact key `content`; array values
are mapped element-wise; non-string scalar values pass through; any
non-object input (per the claim's own taxonomy that includes an array)
is returned unchanged. -/
def specSanitize : JsonValue → JsonValue
  | .obj fields => .obj (specSanFields fields)
  | v => v

/-- Field-wise sanitization of the reference definition. -/
def specSanFields : List (String × JsonValue) → List (String × JsonValue)
  | [] => []
  | (k, v) :: rest => (k, specSanValue k v) :: specSanFields rest

/-- One field of the reference definition (the `content` exemption decided
at this key). -/
def specSanValue (k : String) : JsonValue → JsonValue
  | .str s => if k = "content" then .str s else .str (escapeHtml s)
  | .arr xs => .arr (specSanElems xs)
  | .obj fs => .obj (specSanFields fs)
  | .null => .null
  | .num n => .num n
  | .bool b => .bool b

/-- Element-wise mapping of an array value in the reference definition. -/
def specSanElems : List JsonValue → List JsonValue
  | [] => []
  | v :: rest => specSanElem v :: specSanElems rest

/-- One array element of the reference definition: object elements are
recursively sanitized; scalar elements — numbers, booleans, null, and (the
claim naming no third case) arrays alike — are stringified then escaped. -/
def specSanElem : JsonValue → JsonValue
  | .obj fs => .obj (specSanFields fs)
  | .arr xs => .str (escapeHtml (jsToString (.arr xs)))
  | .null => .str (escapeHtml "null")
  | .str s => .str (escapeHtml s)
  | .num n => .str (escapeHtml (toString n))
  | .bool b => .str (escapeHtml (if b then "true" else "false"))

end

mutual

/-- Inputs on which claim C2's reference definition and the code agree as
proved below: the top-level value is not an array, and no array anywhere
contains a `null` or array element. -/
def okRoot : JsonValue → Bool
  | .arr _ => false
  | .obj fs => okFields fs
  | _ => true

/-- All field values acceptable. -/
def okFields : List (String × JsonValue) → Bool
  | [] => true
  | (_, v) :: rest => okValue v && okFields rest

/-- An acceptable field value. -/
def okValue : JsonValue → Bool
  | .obj fs => okFields fs
  | .arr xs => okElems xs
  | _ => true

/-- All array elements acceptable. -/
def okElems : List JsonValue → Bool
  | [] => true
  | v :: rest => okElem v && okElems rest

/-- An acceptable array element: not `null`, not an array. -/
def okElem : JsonValue → Bool
  | .null => false
  | .arr _ => false
  | .obj fs => okFields fs
  | _ => true

end

/-- A variable reference inside a template: `up` counts the leading `../`
hops (one level of look-through is what the spec's templates use), `path`
the dotted field path; the empty path is `this`. -/
structure VarRef where
  up : Nat
  path : List String
deriving Repr

/-- Modelled from the spec: the tagged template node tree of section 4.1
(Text, Variable, Conditional, Iteration); the Handlebars compiler producing
it is an external dependency, not code of this repository. -/
inductive Template where
  | text (s : String)
  | varSub (v : VarRef)
  | ifSec (v : VarRef) (thenBody elseBody : List Template)
  | eachSec (v : VarRef) (body : List Template)
deriving Repr

/-- JS object property lookup on the association-list embedding: first match
(object keys being unique, insertion order). -/
def lookupField : List (String × JsonValue) → String → Option JsonValue
  | [], _ => none
  | (k1, v) :: rest, k => if k1 = k then some v else lookupField rest k

/-- Walks a dotted field path into a value; any step through a non-object or
a missing key resolves to "missing" (`none`). -/
def walkPath : JsonValue → List String → Option JsonValue
  | v, [] => some v
  | .obj fs, k :: rest =>
      match lookupField fs k with
      | some v => walkPath v rest
      | none => none
  | _, _ :: _ => none

/-- Modelled from the spec: variable resolution against the scope stack
(current context first; `../` pops one frame). -/
def resolveVar (stack : List JsonValue) (v : VarRef) : Option JsonValue :=
  match stack.drop v.up with
  | [] => none
  | ctx :: _ => walkPath ctx v.path

/-- Truthiness used by the custom `if` helper of page-builder.js lines 15-20:
the helper tests `if (conditional)`, i.e. raw JavaScript truthiness, under
which `undefined`, `null`, `false`, `0` and the empty string are falsy while
every array — the empty array included — and every object is truthy. -/
def jsTruthy : Option JsonValue → Bool
  | none => false
  | some (.str s) => !(s == "")
  | some (.num n) => !(n == 0)
  | some (.bool b) => b
  | some .null => false
  | some (.arr _) => true
  | some (.obj _) => true

/-- Modelled from the spec: a variable node substitutes the stringified
value, a missing key rendering the empty string (a `null` value also
renders empty, as the engine does). -/
def substOut : Option JsonValue → String
  | none => ""
  | some .null => ""
  | some v => jsToString v

/-- Concatenates rendered fragments, propagating the first render error —
the behavior of sequential `ret = ret + options.fn(...)` under thrown
exceptions. -/
def combineE : List (Except String String) → Except String String
  | [] => .ok ""
  | .error e :: _ => .error e
  | .ok s :: rest =>
      match combineE rest with
      | .error e => .error e
      | .ok r => .ok (s ++ r)

mutual

/-- Modelled from the spec (section 4.1) for text and variable nodes, with
the two block helpers embedded from the source registrations
(page-builder.js lines 15-28): `if` branches on `jsTruthy`; `each` reads
`context.length` and concatenates `options.fn(context[i])` — on an array it
iterates the elements pushing each as the child scope frame, on a string it
iterates one-character strings, on a number/boolean/plain object `length` is
absent so the loop body never runs, and on `undefined`/`null` the `.length`
access throws. -/
def renderT : Template → List JsonValue → Except String String
  | .text s, _ => .ok s
  | .varSub v, stack => .ok (substOut (resolveVar stack v))
  | .ifSec v a b, stack =>
      if jsTruthy (resolveVar stack v) then renderTList a stack else renderTList b stack
  | .eachSec v body, stack =>
      match resolveVar stack v with
      | some (.arr xs) => combineE (xs.map (fun x => renderTList body (x :: stack)))
      | some (.str s) =>
          combineE (s.data.map (fun c => renderTList body (.str (String.singleton c) :: stack)))
      | some (.num _) => .ok ""
      | some (.bool _) => .ok ""
      | some (.obj _) => .ok ""
      | some .null => .error "TypeError: cannot read length of null"
      | none => .error "TypeError: cannot read length of undefined"

/-- Renders a node list in order, concatenating, propagating errors. -/
def renderTList : List Template → List JsonValue → Except String String
  | [], _ => .ok ""
  | t :: rest, stack =>
      match renderT t stack with
      | .error e => .error e
      | .ok s =>
          match renderTList rest stack with
          | .error e => .error e
          | .ok r => .ok (s ++ r)

end

/-- One JSON string-escape step of `JSON.stringify` (quote, backslash and
the common control characters; other characters pass through — in
particular `&`, `<`, `>` and the apostrophe are NOT escaped). -/
def jsonEscChar (c : Char) : String :=
  if c = '"' then "\\\""
  else if c = '\\' then "\\\\"
  else if c = '\n' then "\\n"
  else if c = '\r' then "\\r"
  else if c = '\t' then "\\t"
  else String.singleton c

/-- JSON string literal of `JSON.stringify`. -/
def jsonQuote (s : String) : String :=
  "\"" ++ String.join (s.data.map jsonEscChar) ++ "\""

mutual

/-- `JSON.stringify` on the embedded JSON values (page-builder.js line 592
serializes the raw, unsanitized config with it). -/
def jsonStringify : JsonValue → String
  | .str s => jsonQuote s
  | .num n => toString n
  | .bool b => if b then "true" else "false"
  | .null => "null"
  | .arr xs => "[" ++ jsonArrItems xs ++ "]"
  | .obj fs => "\x7b" ++ jsonObjItems fs ++ "\x7d"

/-- Comma-separated serialized array elements. -/
def jsonArrItems : List JsonValue → String
  | [] => ""
  | [v] => jsonStringify v
  | v :: rest => jsonStringify v ++ "," ++ jsonArrItems rest

/-- Comma-separated serialized object entries. -/
def jsonObjItems : List (String × JsonValue) → String
  | [] => ""
  | [(k, v)] => jsonQuote k ++ ":" ++ jsonStringify v
  | (k, v) :: rest => jsonQuote k ++ ":" ++ jsonStringify v ++ "," ++ jsonObjItems rest

end

/-- JS property assignment `o[k] = v` on the association-list embedding:
overwrite in place when the key exists (object keys are unique), append
otherwise. -/
def setField : List (String × JsonValue) → String → JsonValue → List (String × JsonValue)
  | [], k, v => [(k, v)]
  | (k1, v1) :: rest, k, v =>
      if k1 = k then (k, v) :: rest else (k1, v1) :: setField rest k v

/-- One entry of a page's `blocks` array: `const { type, config } = block`
(page-builder.js line 577); `config = none` embeds a block object with no
`config` key (destructuring yields `undefined`). -/
structure Block where
  type : String
  config : Option JsonValue
deriving Repr

/-- The compiled, enabled block-type templates keyed by name — the
`templates` map built at page-builder.js lines 570-573. -/
abbrev Registry := List (String × List Template)

/-- Lookup in the compiled-template map. -/
def lookupTemplate : Registry → String → Option (List Template)
  | [], _ => none
  | (n, t) :: rest, name => if n = name then some t else lookupTemplate rest name

/-- Builds the scope a block's template executes against (page-builder.js
lines 585-592): sanitize the config, then assign `safeConfig.year` and
`safeConfig.jsonConfig` (the latter the RAW config serialized).  The file is
an ES module, hence strict mode: when the sanitizer returned a non-object
(primitive, `null`, or `undefined` for a missing config) the `year`
assignment throws a `TypeError`. -/
def buildScope (year : Int) (config : Option JsonValue) : Except String JsonValue :=
  match config with
  | none => .error "TypeError: cannot create property on undefined"
  | some c =>
      match escapeBlockConfig c with
      | .obj fields =>
          .ok (.obj (setField (setField fields "year" (.num year))
                "jsonConfig" (.str (jsonStringify c))))
      | _ => .error "TypeError: cannot create property on a primitive or null"

/-- The body of the per-block `try` (page-builder.js lines 584-594): build
the scope, then execute the compiled template against it. -/
def runBlock (year : Int) (tmpl : List Template) (config : Option JsonValue) :
    Except String String :=
  match buildScope year config with
  | .error e => .error e
  | .ok scope => renderTList tmpl [scope]

/-- The marker emitted by the per-block `catch` (page-builder.js line 597). -/
def errMarker (t : String) : String :=
  "<!-- Error rendering " ++ t ++ " block -->"

/-- The fragment one block contributes to the page HTML: an unregistered
type contributes nothing (the source only calls `console.warn` and
`continue`s, lines 579-582); a thrown render error contributes the error
marker (lines 595-598). -/
def renderOneBlock (reg : Registry) (year : Int) (b : Block) : String :=
  match lookupTemplate reg b.type with
  | none => ""
  | some tmpl =>
      match runBlock year tmpl b.config with
      | .ok s => s
      | .error _ => errMarker b.type

/-- Embeds the `renderBlocks` loop (page-builder.js lines 558-602): the
fragments accumulate onto `html` in block order.  The registry (built from
the enabled `block_types` rows) and the current year
(`new Date().getFullYear()`) are the loop's ambient inputs. -/
def renderBlocks (reg : Registry) (year : Int) : List Block → String
  | [] => ""
  | b :: rest => renderOneBlock reg year b ++ renderBlocks reg year rest

/-- Concatenation of a list of strings in order. -/
def concatAll : List String → String
  | [] => ""
  | s :: rest => s ++ concatAll rest

/-- A row of `page_versions` (migrations/004_website_builder.sql lines
213-221): page id, version number, blocks snapshot, author. -/
structure VersionRow where
  pageId : Nat
  versionNumber : Nat
  blocks : JsonValue
  createdBy : Nat
deriving Repr

/-- The persistent state the `PUT /api/pages/:id` handler touches: the
`pages` rows (id paired with the current blocks — the single-tenant slice
the handler addresses) and the append-only `page_versions` rows. -/
structure DbState where
  pages : List (Nat × JsonValue)
  versions : List VersionRow
deriving Repr

/-- The `SELECT blocks FROM pages WHERE id = ...` probe of line 300. -/
def lookupPage : List (Nat × JsonValue) → Nat → Option JsonValue
  | [], _ => none
  | (pid1, bl) :: rest, pid => if pid1 = pid then some bl else lookupPage rest pid

/-- The `UPDATE pages SET blocks = ... WHERE id = ...` effect on the rows. -/
def setPage (pages : List (Nat × JsonValue)) (pid : Nat) (blocks : JsonValue) :
    List (Nat × JsonValue) :=
  pages.map (fun row => if row.1 = pid then (pid, blocks) else row)

/-- `SELECT MAX(version_number) ... WHERE page_id = ...`, with the handler's
`|| 0` for a page that has no versions yet (line 311). -/
def maxVersion (versions : List VersionRow) (pid : Nat) : Nat :=
  (versions.filter (fun r => r.pageId == pid)).foldl (fun acc r => max acc r.versionNumber) 0

/-- `POST /api/pages` (lines 261-288): inserts the page row; no version
snapshot is taken on first creation. -/
def createPage (st : DbState) (pid : Nat) (blocks : JsonValue) : DbState :=
  ⟨st.pages ++ [(pid, blocks)], st.versions⟩

/-- The `PUT /api/pages/:id` handler (lines 293-344), success path: if the
page exists, insert one `page_versions` row carrying the pre-update blocks,
`MAX(version_number)+1` and the editor id, then update the page row; if
the page does not exist, no snapshot is inserted and the `UPDATE` matches
no row (the handler answers 404). -/
def updatePage (st : DbState) (pid : Nat) (newBlocks : JsonValue) (editor : Nat) : DbState :=
  match lookupPage st.pages pid with
  | none => st
  | some oldBlocks =>
      ⟨setPage st.pages pid newBlocks,
       st.versions ++ [⟨pid, maxVersion st.versions pid + 1, oldBlocks, editor⟩]⟩

/-- The same handler with the fallibility of the `UPDATE pages` query made
explicit (`updateSucceeds = false`: the query throws, e.g. the
`UNIQUE(tenant_id, slug)` index of migrations/004 line 37 rejecting a new
slug).  The handler wraps everything in one `try`/`catch` but runs each
query as its own auto-committed statement — there is no transaction — so
the already-inserted `page_versions` row survives the failure. -/
def putPageOutcome (st : DbState) (pid : Nat) (newBlocks : JsonValue) (editor : Nat)
    (updateSucceeds : Bool) : DbState :=
  match lookupPage st.pages pid with
  | none => st
  | some oldBlocks =>
      if updateSucceeds then
        ⟨setPage st.pages pid newBlocks,
         st.versions ++ [⟨pid, maxVersion st.versions pid + 1, oldBlocks, editor⟩]⟩
      else
        ⟨st.pages,
         st.versions ++ [⟨pid, maxVersion st.versions pid + 1, oldBlocks, editor⟩]⟩

/-- Boolean prefix test on character lists. -/
def startsWithChars : List Char → List Char → Bool
  | [], _ => true
  | _ :: _, [] => false
  | a :: as, b :: bs => a == b && startsWithChars as bs

/-- Boolean substring occurrence test on character lists. -/
def hasSubChars (needle : List Char) : List Char → Bool
  | [] => startsWithChars needle []
  | c :: rest => startsWithChars needle (c :: rest) || hasSubChars needle rest

/-- Whether `needle` occurs as a contiguous substring of `hay`. -/
def hasSubstr (needle hay : String) : Bool :=
  hasSubChars needle.data hay.data

/-- Amended falsiness enumeration for claim C3: `false`, `0`, the empty
string, `null` (and, separately handled, a missing field) are falsy;
arrays — including the empty array — and objects are truthy. -/
def falsyValue : JsonValue → Bool
  | .bool b => !b
  | .num n => n == 0
  | .str s => s == ""
  | .null => true
  | .arr _ => false
  | .obj _ => false

/-- The conditional-section template of claim C3's scenario. -/
def ifTemplate : List Template :=
  [Template.ifSec ⟨0, ["x"]⟩ [Template.text "A"] []]

/-- The iteration template of claim C4's scenario. -/
def eachTemplate : List Template :=
  [Template.eachSec ⟨0, ["items"]⟩
    [Template.varSub ⟨0, ["name"]⟩, Template.text "-", Template.varSub ⟨1, ["title"]⟩]]

/-- The outer scope of claim C4's scenario. -/
def shopScope : JsonValue :=
  .obj [("items", .arr [.obj [("name", .str "p1")], .obj [("name", .str "p2")]]),
        ("title", .str "Shop")]

/-- The hero template fragment of claim C1's literal scenario. -/
def heroTemplate : List Template :=
  [Template.text "<h1>", Template.varSub ⟨0, ["title"]⟩, Template.text "</h1>"]

/-- The hero block of claim C1's literal scenario. -/
def heroBlock : Block :=
  ⟨"hero", some (.obj [("title", .str "<script>alert(1)</script>"),
                       ("subtitle", .str "Welcome")])⟩

/-- A template substituting the synthesized `jsonConfig` field, shaped like
the seeded `product-grid` block type (`data-config="..."`, migrations/004
line 135). -/
def pgTemplate : List Template :=
  [Template.text "<div data-config=\"", Template.varSub ⟨0, ["jsonConfig"]⟩,
   Template.text "\"></div>"]

/-- A block whose config carries a raw `<script>` string, for claim C1's
counterexample. -/
def pgBlock : Block := ⟨"product-grid", some (.obj [("title", .str "<script>")])⟩

/-- Registry fixture for claim C5: a single registered type `text`. -/
def c5Registry : Registry := [("text", [Template.text "T"])]

/-- A block of the registered type, for claim C5. -/
def c5TextBlock : Block := ⟨"text", some (.obj [])⟩

/-- A block of an unregistered type, for claim C5. -/
def c5NopeBlock : Block := ⟨"nope", some (.obj [])⟩

/-- Registry fixture for claim C6: type `bad` iterates a missing field
(whose `.length` read throws), type `good` renders plain text. -/
def c6Registry : Registry :=
  [("bad", [Template.eachSec ⟨0, ["items"]⟩ []]), ("good", [Template.text "G"])]

/-- A block whose template execution throws, for claim C6. -/
def c6BadBlock : Block := ⟨"bad", some (.obj [])⟩

/-- A block that renders fine, for claim C6. -/
def c6GoodBlock : Block := ⟨"good", some (.obj [])⟩


/-- Rendering distributes over list append: the loop accumulates
independent per-block fragments. -/
theorem renderBlocks_append (reg : Registry) (year : Int) (l1 l2 : List Block) :
    renderBlocks reg year (l1 ++ l2)
      = renderBlocks reg year l1 ++ renderBlocks reg year l2 := by
  induction l1 with
  | nil =>
      show renderBlocks reg year l2 = "" ++ renderBlocks reg year l2
      rw [String.empty_append]
  | cons b rest ih =>
      show renderOneBlock reg year b ++ renderBlocks reg year (rest ++ l2)
        = (renderOneBlock reg year b ++ renderBlocks reg year rest) ++ renderBlocks reg year l2
      rw [ih, String.append_assoc]

/-- Lookup at a key distinct from the assigned one is unchanged by a JS
property assignment. -/
theorem lookup_setField_ne (fields : List (String × JsonValue)) (k k1 : String)
    (v : JsonValue) (h : k1 ≠ k) :
    lookupField (setField fields k v) k1 = lookupField fields k1 := by
  induction fields with
  | nil =>
      show lookupField [(k, v)] k1 = none
      show (if k = k1 then some v else none) = none
      rw [if_neg (fun hx => h hx.symm)]
  | cons kv rest ih =>
      obtain ⟨k2, v2⟩ := kv
      show lookupField (if k2 = k then (k, v) :: rest else (k2, v2) :: setField rest k v) k1
        = lookupField ((k2, v2) :: rest) k1
      by_cases he : k2 = k
      · rw [if_pos he]
        show (if k = k1 then some v else lookupField rest k1)
          = (if k2 = k1 then some v2 else lookupField rest k1)
        rw [if_neg (fun hx => h hx.symm), if_neg (fun hx => h (he ▸ hx).symm)]
      · rw [if_neg he]
        show (if k2 = k1 then some v2 else lookupField (setField rest k v) k1)
          = (if k2 = k1 then some v2 else lookupField rest k1)
        rw [ih]

/-- Sanitizing an object's entries escapes the first string value found at
any key other than `content`. -/
theorem lookup_escapeFields_ne (fields : List (String × JsonValue)) (k : String) (v : String)
    (hk : k ≠ "content") (h : lookupField fields k = some (.str v)) :
    lookupField (escapeFields fields) k = some (.str (escapeHtml v)) := by
  induction fields with
  | nil => exact absurd h (by simp [lookupField])
  | cons kv rest ih =>
      obtain ⟨k1, v1⟩ := kv
      show lookupField ((k1, escapeEntry k1 v1) :: escapeFields rest) k = _
      by_cases he : k1 = k
      · have h2 : some v1 = some (JsonValue.str v) := by
          rw [lookupField, if_pos he] at h; exact h
        injection h2 with hv
        subst hv
        show (if k1 = k then some (escapeEntry k1 (.str v)) else lookupField (escapeFields rest) k)
          = some (.str (escapeHtml v))
        rw [if_pos he]
        show some (if k1 = "content" then JsonValue.str v else .str (escapeHtml v)) = _
        rw [if_neg (he ▸ hk)]
      · rw [lookupField, if_neg he] at h
        show (if k1 = k then some (escapeEntry k1 v1) else lookupField (escapeFields rest) k)
          = some (.str (escapeHtml v))
        rw [if_neg he]
        exact ih h

/-- Sanitizing an object's entries passes the first string value keyed
`content` through verbatim. -/
theorem lookup_escapeFields_content (fields : List (String × JsonValue)) (v : String)
    (h : lookupField fields "content" = some (.str v)) :
    lookupField (escapeFields fields) "content" = some (.str v) := by
  induction fields with
  | nil => exact absurd h (by simp [lookupField])
  | cons kv rest ih =>
      obtain ⟨k1, v1⟩ := kv
      show lookupField ((k1, escapeEntry k1 v1) :: escapeFields rest) "content" = _
      by_cases he : k1 = "content"
      · have h2 : some v1 = some (JsonValue.str v) := by
          rw [lookupField, if_pos he] at h; exact h
        injection h2 with hv
        subst hv
        show (if k1 = "content" then some (escapeEntry k1 (.str v))
              else lookupField (escapeFields rest) "content") = some (.str v)
        rw [if_pos he]
        show some (if k1 = "content" then JsonValue.str v else .str (escapeHtml v)) = _
        rw [if_pos he]
      · rw [lookupField, if_neg he] at h
        show (if k1 = "content" then some (escapeEntry k1 v1)
              else lookupField (escapeFields rest) "content") = some (.str v)
        rw [if_neg he]
        exact ih h

mutual

/-- On acceptable field lists the code sanitizer and the claim's reference
definition produce the same entries. -/
theorem escFieldsAgree : ∀ fs, okFields fs = true → escapeFields fs = specSanFields fs
  | [], _ => rfl
  | (k, v) :: rest, h => by
      have h2 := h
      simp only [okFields, Bool.and_eq_true] at h2
      show (k, escapeEntry k v) :: escapeFields rest
        = (k, specSanValue k v) :: specSanFields rest
      rw [escEntryAgree k v h2.1, escFieldsAgree rest h2.2]

/-- On acceptable values the per-entry dispatch of the code and of the
reference definition agree. -/
theorem escEntryAgree : ∀ k v, okValue v = true → escapeEntry k v = specSanValue k v
  | _, .str _, _ => rfl
  | _, .num _, _ => rfl
  | _, .bool _, _ => rfl
  | _, .null, _ => rfl
  | _, .arr xs, h => by
      have h2 : okElems xs = true := h
      show JsonValue.arr (escapeElems xs) = .arr (specSanElems xs)
      rw [escElemsAgree xs h2]
  | _, .obj fs, h => by
      have h2 : okFields fs = true := h
      show JsonValue.obj (escapeFields fs) = .obj (specSanFields fs)
      rw [escFieldsAgree fs h2]

/-- On acceptable element lists the two element maps agree. -/
theorem escElemsAgree : ∀ xs, okElems xs = true → escapeElems xs = specSanElems xs
  | [], _ => rfl
  | v :: rest, h => by
      have h2 := h
      simp only [okElems, Bool.and_eq_true] at h2
      show escapeElem v :: escapeElems rest = specSanElem v :: specSanElems rest
      rw [escElemAgree v h2.1, escElemsAgree rest h2.2]

/-- On acceptable elements (not `null`, not an array) the two per-element
treatments agree. -/
theorem escElemAgree : ∀ v, okElem v = true → escapeElem v = specSanElem v
  | .str _, _ => rfl
  | .num _, _ => rfl
  | .bool _, _ => rfl
  | .null, h => by exact absurd h (by simp [okElem])
  | .arr _, h => by exact absurd h (by simp [okElem])
  | .obj fs, h => by
      have h2 : okFields fs = true := h
      show JsonValue.obj (escapeFields fs) = .obj (specSanFields fs)
      rw [escFieldsAgree fs h2]

end

/-- Claim C1 (amended): every tenant string field of a block config other
than one keyed `content` reaches the template scope HTML-escaped (`&<>"`
and the apostrophe replaced by entities), the `content` field reaches it
byte-for-byte, and the literal hero scenario — block
`type hero, config (title = "<script>alert(1)</script>", subtitle =
"Welcome")` against the template `<h1>...title...</h1>` — renders exactly
`<h1>&lt;script&gt;alert(1)&lt;/script&gt;</h1>`; the amendment: the
synthesized `jsonConfig` scope field carries the raw config JSON-serialized,
so only fields substituted directly (not through `jsonConfig`) appear
escaped. -/
theorem c1_escaping :
    (∀ (year : Int) (fields : List (String × JsonValue)) (k v : String),
        k ≠ "content" → k ≠ "year" → k ≠ "jsonConfig" →
        lookupField fields k = some (.str v) →
        ∃ sfields, buildScope year (some (.obj fields)) = .ok (.obj sfields)
          ∧ lookupField sfields k = some (.str (escapeHtml v)))
    ∧ (∀ (year : Int) (fields : List (String × JsonValue)) (v : String),
        lookupField fields "content" = some (.str v) →
        ∃ sfields, buildScope year (some (.obj fields)) = .ok (.obj sfields)
          ∧ lookupField sfields "content" = some (.str v))
    ∧ (∀ year : Int,
        renderBlocks [("hero", heroTemplate)] year [heroBlock]
          = "<h1>&lt;script&gt;alert(1)&lt;/script&gt;</h1>") := by
  refine ⟨?_, ?_, ?_⟩
  · intro year fields k v hc hy hj h
    refine ⟨setField (setField (escapeFields fields) "year" (.num year))
        "jsonConfig" (.str (jsonStringify (.obj fields))), rfl, ?_⟩
    rw [lookup_setField_ne _ _ _ _ hj, lookup_setField_ne _ _ _ _ hy]
    exact lookup_escapeFields_ne fields k v hc h
  · intro year fields v h
    refine ⟨setField (setField (escapeFields fields) "year" (.num year))
        "jsonConfig" (.str (jsonStringify (.obj fields))), rfl, ?_⟩
    rw [lookup_setField_ne _ _ _ _ (by decide), lookup_setField_ne _ _ _ _ (by decide)]
    exact lookup_escapeFields_content fields v h
  · intro year
    rfl

/-- Claim C1 witness: the general escaping statement applied at the config
`(title = "<")`. -/
theorem c1_escaping_witness :
    ∃ sfields, buildScope 2025 (some (.obj [("title", .str "<")])) = .ok (.obj sfields)
      ∧ lookupField sfields "title" = some (.str (escapeHtml "<")) :=
  c1_escaping.1 2025 [("title", .str "<")] "title" "<"
    (by decide) (by decide) (by decide) rfl

/-- Claim C1 counterexample to the claim as stated: against a template that
substitutes the synthesized `jsonConfig` field (shaped like the seeded
`product-grid` template), the tenant string `<script>` stored under `title`
appears in the returned HTML verbatim — the output contains `<script>` and
contains no `&lt;` — so not every non-`content` string field appears with
`&<>` escaped. -/
theorem c1_escaping_counterexample :
    renderBlocks [("product-grid", pgTemplate)] 2025 [pgBlock]
      = "<div data-config=\"\x7b\"title\":\"<script>\"\x7d\"></div>"
    ∧ hasSubstr "&lt;" (renderBlocks [("product-grid", pgTemplate)] 2025 [pgBlock]) = false
    ∧ hasSubstr "<script>" (renderBlocks [("product-grid", pgTemplate)] 2025 [pgBlock]) = true :=
  ⟨rfl, rfl, rfl⟩

/-- Claim C2 (amended): `escapeBlockConfig` equals the claim's recursive
reference definition on every input whose arrays contain no `null` and no
array elements and which is not itself an array; the amendment covers the
cases the code dispatches by JavaScript `typeof`: a `null` array element
passes through unchanged (instead of stringifying to `"null"`), an array
array-element is rebuilt as an object keyed by decimal indices, and an
array given as the whole config is likewise rebuilt as an index-keyed
object rather than returned unchanged. -/
theorem c2_sanitizer_equiv :
    (∀ v : JsonValue, okRoot v = true → escapeBlockConfig v = specSanitize v)
    ∧ escapeElem .null = .null
    ∧ (∀ xs, escapeElem (.arr xs) = .obj (escapeArr 0 xs))
    ∧ (∀ xs, escapeBlockConfig (.arr xs) = .obj (escapeArr 0 xs)) := by
  refine ⟨?_, rfl, fun xs => rfl, fun xs => rfl⟩
  intro v hv
  cases v with
  | obj fs =>
      have h2 : okFields fs = true := hv
      show JsonValue.obj (escapeFields fs) = .obj (specSanFields fs)
      rw [escFieldsAgree fs h2]
  | arr xs => exact absurd hv (by simp [okRoot])
  | str s => rfl
  | num n => rfl
  | bool b => rfl
  | null => rfl

/-- Claim C2 witness: code sanitizer and reference definition agree on a
config with an escaped title, a verbatim `content` field, a scalar array
and a nested object with its own `content` key. -/
theorem c2_sanitizer_equiv_witness :
    escapeBlockConfig (.obj [("title", .str "<b>"), ("content", .str "<i>rich</i>"),
        ("tags", .arr [.num 1, .str "a&b"]),
        ("nested", .obj [("content", .str "<u>deep</u>"), ("n", .num 3)])])
      = specSanitize (.obj [("title", .str "<b>"), ("content", .str "<i>rich</i>"),
        ("tags", .arr [.num 1, .str "a&b"]),
        ("nested", .obj [("content", .str "<u>deep</u>"), ("n", .num 3)])]) :=
  c2_sanitizer_equiv.1 _ rfl

/-- Claim C2 counterexample to the claim as stated: on the config
`(items = [null])` the code returns the `null` element unchanged (it has
`typeof 'object'` and recurses through `escapeBlockConfig`), while the
reference definition stringifies-then-escapes the scalar to `"null"`. -/
theorem c2_sanitizer_equiv_counterexample :
    escapeBlockConfig (.obj [("items", .arr [.null])])
      ≠ specSanitize (.obj [("items", .arr [.null])]) := by
  intro h
  have h1 : JsonValue.obj [("items", JsonValue.arr [JsonValue.null])]
      = JsonValue.obj [("items", JsonValue.arr [JsonValue.str "null"])] := h
  injection h1 with h2
  injection h2 with h3 h4
  injection h3 with h5 h6
  injection h6 with h7
  injection h7 with h8 h9
  exact JsonValue.noConfusion h8

/-- Claim C3 (amended): the conditional section renders its branch exactly
when the resolved field is truthy under the registered `if` helper, whose
falsy values are a missing field, `false`, `0`, the empty string and
`null`; an array — the empty array included — is truthy, so the scenario
list reads: absent, `""`, `false`, `0` render the empty string, while
`"yes"`, `1` and `[]` render `A` (the claim wrongly listed `[]` as falsy). -/
theorem c3_if_truthiness :
    (∀ v : JsonValue, renderTList ifTemplate [.obj [("x", v)]]
        = .ok (if falsyValue v then "" else "A"))
    ∧ renderTList ifTemplate [.obj []] = .ok ""
    ∧ renderTList ifTemplate [.obj [("x", .str "")]] = .ok ""
    ∧ renderTList ifTemplate [.obj [("x", .bool false)]] = .ok ""
    ∧ renderTList ifTemplate [.obj [("x", .num 0)]] = .ok ""
    ∧ renderTList ifTemplate [.obj [("x", .str "yes")]] = .ok "A"
    ∧ renderTList ifTemplate [.obj [("x", .num 1)]] = .ok "A"
    ∧ renderTList ifTemplate [.obj [("x", .arr [])]] = .ok "A" := by
  refine ⟨?_, rfl, rfl, rfl, rfl, rfl, rfl, rfl⟩
  intro v
  cases v with
  | str s =>
      by_cases h : s = ""
      · subst h; rfl
      · have hb : (s == "") = false := beq_eq_false_iff_ne.mpr h
        simp [renderTList, renderT, ifTemplate, resolveVar, walkPath, lookupField,
          jsTruthy, falsyValue, hb, String.append_empty]
  | num n =>
      by_cases h : n = 0
      · subst h; rfl
      · have hb : (n == 0) = false := beq_eq_false_iff_ne.mpr h
        simp [renderTList, renderT, ifTemplate, resolveVar, walkPath, lookupField,
          jsTruthy, falsyValue, hb, String.append_empty]
  | bool b => cases b <;> rfl
  | null => rfl
  | arr xs => rfl
  | obj fs => rfl

/-- Claim C3 counterexample to the claim as stated: with `x = []` the
section renders `A`, not the empty string — the registered helper tests raw
JS truthiness and an empty array is truthy. -/
theorem c3_if_truthiness_counterexample :
    renderTList ifTemplate [.obj [("x", .arr [])]] = .ok "A"
    ∧ (Except.ok "A" : Except String String) ≠ .ok "" :=
  ⟨rfl, fun h => by injection h with h1; exact absurd h1 (by decide)⟩

/-- Claim C4: an iteration section whose field resolves to an array renders
its body once per element in array order, each pass pushing the element as
the child scope frame (so `this`-relative paths read the element and a
`../`-prefixed path reads the enclosing scope), concatenating the passes;
in particular the scenario template over `items = [(name = p1), (name =
p2)]` with outer `title = "Shop"` renders `p1-Shop` then `p2-Shop`. -/
theorem c4_each_iteration :
    (∀ (stack : List JsonValue) (v : VarRef) (body : List Template) (xs : List JsonValue),
        resolveVar stack v = some (.arr xs) →
        renderT (.eachSec v body) stack
          = combineE (xs.map (fun x => renderTList body (x :: stack))))
    ∧ renderTList eachTemplate [shopScope] = .ok "p1-Shopp2-Shop" := by
  constructor
  · intro stack v body xs h
    show (match resolveVar stack v with
          | some (.arr xs) => combineE (xs.map (fun x => renderTList body (x :: stack)))
          | some (.str s) =>
              combineE (s.data.map (fun c => renderTList body (.str (String.singleton c) :: stack)))
          | some (.num _) => .ok ""
          | some (.bool _) => .ok ""
          | some (.obj _) => .ok ""
          | some .null => .error "TypeError: cannot read length of null"
          | none => .error "TypeError: cannot read length of undefined")
        = combineE (xs.map (fun x => renderTList body (x :: stack)))
    rw [h]
  · rfl

/-- Claim C4 witness: the general iteration equation applied to a one-element
array in a concrete scope. -/
theorem c4_each_iteration_witness :
    renderT (.eachSec ⟨0, ["items"]⟩ [Template.varSub ⟨0, []⟩])
        [.obj [("items", .arr [.num 7])]]
      = combineE ([JsonValue.num 7].map
          (fun x => renderTList [Template.varSub ⟨0, []⟩]
            (x :: [JsonValue.obj [("items", .arr [.num 7])]]))) :=
  c4_each_iteration.1 [.obj [("items", .arr [.num 7])]] ⟨0, ["items"]⟩
    [Template.varSub ⟨0, []⟩] [.num 7] rfl

/-- Claim C5 (amended): a block whose type is not registered contributes
nothing to the output — the loop logs a console warning and `continue`s,
emitting no marker comment — and every other block's HTML is unchanged. -/
theorem c5_unknown_block (reg : Registry) (year : Int) (pre post : List Block) (b : Block)
    (h : lookupTemplate reg b.type = none) :
    renderBlocks reg year (pre ++ b :: post)
      = renderBlocks reg year pre ++ renderBlocks reg year post := by
  have h1 : renderOneBlock reg year b = "" := by
    show (match lookupTemplate reg b.type with
          | none => ""
          | some tmpl =>
              match runBlock year tmpl b.config with
              | .ok s => s
              | .error _ => errMarker b.type) = ""
    rw [h]
  rw [renderBlocks_append]
  show renderBlocks reg year pre ++ (renderOneBlock reg year b ++ renderBlocks reg year post) = _
  rw [h1, String.empty_append]

/-- Claim C5 witness: the amended statement on a concrete list — an
unregistered `nope` block between two registered `text` blocks drops out
without a trace. -/
theorem c5_unknown_block_witness :
    renderBlocks c5Registry 2025 ([c5TextBlock] ++ c5NopeBlock :: [c5TextBlock])
      = renderBlocks c5Registry 2025 [c5TextBlock] ++ renderBlocks c5Registry 2025 [c5TextBlock] :=
  c5_unknown_block c5Registry 2025 [c5TextBlock] [c5TextBlock] c5NopeBlock rfl

/-- Claim C5 counterexample to the claim as stated: rendering a list with an
unknown `nope` block yields `T` alone — the output does NOT contain the
marker comment `<!-- Unknown block type: nope -->` the claim promises (the
source only writes that text to the server console). -/
theorem c5_unknown_block_counterexample :
    renderBlocks c5Registry 2025 [c5NopeBlock, c5TextBlock] = "T"
    ∧ hasSubstr "<!-- Unknown block type: nope -->"
        (renderBlocks c5Registry 2025 [c5NopeBlock, c5TextBlock]) = false :=
  ⟨rfl, rfl⟩

/-- Claim C6: when executing a block's compiled template throws, the loop
catches it, emits `<!-- Error rendering (type) block -->` in place of that
block's output, and still renders every later block; fragments concatenate
in block order. -/
theorem c6_error_isolation (reg : Registry) (year : Int) (pre post : List Block) (b : Block)
    (tmpl : List Template) (e : String)
    (hl : lookupTemplate reg b.type = some tmpl)
    (hr : runBlock year tmpl b.config = .error e) :
    renderBlocks reg year (pre ++ b :: post)
      = renderBlocks reg year pre ++ (errMarker b.type ++ renderBlocks reg year post) := by
  have h1 : renderOneBlock reg year b = errMarker b.type := by
    show (match lookupTemplate reg b.type with
          | none => ""
          | some tmpl =>
              match runBlock year tmpl b.config with
              | .ok s => s
              | .error _ => errMarker b.type) = errMarker b.type
    rw [hl]
    show (match runBlock year tmpl b.config with
          | .ok s => s
          | .error _ => errMarker b.type) = errMarker b.type
    rw [hr]
  rw [renderBlocks_append]
  show renderBlocks reg year pre ++ (renderOneBlock reg year b ++ renderBlocks reg year post) = _
  rw [h1]

/-- Claim C6 witness: a `bad` block (whose template iterates a missing field,
so its execution throws) sandwiched between two `good` blocks yields the good
fragments around the error marker. -/
theorem c6_error_isolation_witness :
    renderBlocks c6Registry 2025 ([c6GoodBlock] ++ c6BadBlock :: [c6GoodBlock])
      = renderBlocks c6Registry 2025 [c6GoodBlock]
        ++ (errMarker c6BadBlock.type ++ renderBlocks c6Registry 2025 [c6GoodBlock]) :=
  c6_error_isolation c6Registry 2025 [c6GoodBlock] [c6GoodBlock] c6BadBlock
    [Template.eachSec ⟨0, ["items"]⟩ []] "TypeError: cannot read length of undefined" rfl rfl

/-- Claim C7: with the same registry and the same clock year, rendering a
block list equals the concatenation of rendering each block alone — the
loop carries no cross-block state. -/
theorem c7_composability (reg : Registry) (year : Int) (bs : List Block) :
    renderBlocks reg year bs = concatAll (bs.map (fun b => renderBlocks reg year [b])) := by
  induction bs with
  | nil => rfl
  | cons b rest ih =>
      show renderOneBlock reg year b ++ renderBlocks reg year rest
        = concatAll ((renderOneBlock reg year b ++ renderBlocks reg year []) ::
            rest.map (fun b => renderBlocks reg year [b]))
      show renderOneBlock reg year b ++ renderBlocks reg year rest
        = (renderOneBlock reg year b ++ "") ++ concatAll (rest.map (fun b => renderBlocks reg year [b]))
      rw [String.append_empty, ih]

/-- Claim C8: an update request for an existing page inserts exactly one
`page_versions` row, numbered `(max existing version for that page, or 0) +
1`, snapshotting the pre-update block list and attributed to the requesting
editor, then updates the page row; an update for an absent page inserts no
snapshot, and first creation inserts none; three sequential updates of a
fresh page produce versions numbered 1, 2, 3 in order. -/
theorem c8_versioning :
    (∀ (st : DbState) (pid : Nat) (nb : JsonValue) (ed : Nat) (old : JsonValue),
        lookupPage st.pages pid = some old →
        updatePage st pid nb ed
          = ⟨setPage st.pages pid nb,
             st.versions ++ [⟨pid, maxVersion st.versions pid + 1, old, ed⟩]⟩)
    ∧ (∀ (st : DbState) (pid : Nat) (nb : JsonValue) (ed : Nat),
        lookupPage st.pages pid = none → updatePage st pid nb ed = st)
    ∧ (∀ (st : DbState) (pid : Nat) (b : JsonValue),
        (createPage st pid b).versions = st.versions)
    ∧ (∀ (pid : Nat) (b0 b1 b2 b3 : JsonValue) (e1 e2 e3 : Nat),
        (updatePage (updatePage (updatePage ⟨[(pid, b0)], []⟩ pid b1 e1) pid b2 e2)
            pid b3 e3).versions
          = [⟨pid, 1, b0, e1⟩, ⟨pid, 2, b1, e2⟩, ⟨pid, 3, b2, e3⟩]) := by
  refine ⟨?_, ?_, ?_, ?_⟩
  · intro st pid nb ed old h
    simp only [updatePage]
    rw [h]
  · intro st pid nb ed h
    simp only [updatePage]
    rw [h]
  · intro st pid b
    rfl
  · intro pid b0 b1 b2 b3 e1 e2 e3
    have s1 : updatePage ⟨[(pid, b0)], []⟩ pid b1 e1
        = ⟨[(pid, b1)], [⟨pid, 1, b0, e1⟩]⟩ := by
      simp [updatePage, lookupPage, setPage, maxVersion]
    have s2 : updatePage ⟨[(pid, b1)], [⟨pid, 1, b0, e1⟩]⟩ pid b2 e2
        = ⟨[(pid, b2)], [⟨pid, 1, b0, e1⟩, ⟨pid, 2, b1, e2⟩]⟩ := by
      simp [updatePage, lookupPage, setPage, maxVersion]
    have s3 : updatePage ⟨[(pid, b2)], [⟨pid, 1, b0, e1⟩, ⟨pid, 2, b1, e2⟩]⟩ pid b3 e3
        = ⟨[(pid, b3)], [⟨pid, 1, b0, e1⟩, ⟨pid, 2, b1, e2⟩, ⟨pid, 3, b2, e3⟩]⟩ := by
      simp [updatePage, lookupPage, setPage, maxVersion]
    rw [s1, s2, s3]

/-- Claim C8 witness: one concrete update of an existing, never-versioned
page inserts the single snapshot row numbered 1. -/
theorem c8_versioning_witness :
    updatePage ⟨[(1, .str "b0")], []⟩ 1 (.str "b1") 7
      = ⟨setPage [(1, .str "b0")] 1 (.str "b1"),
         [⟨1, maxVersion [] 1 + 1, .str "b0", 7⟩]⟩ :=
  c8_versioning.1 ⟨[(1, .str "b0")], []⟩ 1 (.str "b1") 7 (.str "b0") rfl

/-- Claim C9 (code bug): the version insert and the page update are NOT
atomic — the handler runs them as two separately auto-committed queries
with no transaction, so when the `UPDATE pages` throws (e.g. the
`UNIQUE(tenant_id, slug)` index rejecting a new slug) after the
`INSERT page_versions` committed, the orphaned snapshot row numbered 1
remains while the page row is unchanged; on the success path the outcome
coincides with the plain update model. -/
theorem c9_atomicity_bug :
    (putPageOutcome ⟨[(1, .str "old")], []⟩ 1 (.str "new") 7 false).versions
      = [⟨1, 1, .str "old", 7⟩]
    ∧ (putPageOutcome ⟨[(1, .str "old")], []⟩ 1 (.str "new") 7 false).pages
      = [(1, .str "old")]
    ∧ (∀ (st : DbState) (pid : Nat) (nb : JsonValue) (ed : Nat),
        putPageOutcome st pid nb ed true = updatePage st pid nb ed) := by
  refine ⟨rfl, rfl, ?_⟩
  intro st pid nb ed
  cases h : lookupPage st.pages pid with
  | none => simp [putPageOutcome, updatePage, h]
  | some old => simp [putPageOutcome, updatePage, h]

/-- Claim C10: a block whose type is registered but whose config is not a
JSON object (missing, `null`, a string, a number or a boolean) contributes
the error marker instead of any template output: the sanitizer returns
such a config unchanged and the strict-mode assignment of the synthesized
`year` field onto it throws, which the per-block handler catches. -/
theorem c10_nonobject_config (reg : Registry) (year : Int) (b : Block) (tmpl : List Template)
    (hl : lookupTemplate reg b.type = some tmpl)
    (hc : b.config = none ∨ b.config = some .null ∨ (∃ s, b.config = some (.str s))
          ∨ (∃ n, b.config = some (.num n)) ∨ (∃ bo, b.config = some (.bool bo))) :
    renderOneBlock reg year b = errMarker b.type := by
  have hb : ∃ e, buildScope year b.config = .error e := by
    rcases hc with h | h | ⟨s, h⟩ | ⟨n, h⟩ | ⟨bo, h⟩ <;> rw [h] <;> exact ⟨_, rfl⟩
  obtain ⟨e, he⟩ := hb
  show (match lookupTemplate reg b.type with
        | none => ""
        | some tmpl =>
            match runBlock year tmpl b.config with
            | .ok s => s
            | .error _ => errMarker b.type) = errMarker b.type
  rw [hl]
  show (match runBlock year tmpl b.config with
        | .ok s => s
        | .error _ => errMarker b.type) = errMarker b.type
  have hrb : runBlock year tmpl b.config = .error e := by
    show ((match buildScope year b.config with
          | .error e => .error e
          | .ok scope => renderTList tmpl [scope] : Except String String)) = .error e
    rw [he]
  rw [hrb]

/-- Claim C10 witness: a registered `hero` block whose config is the bare
string `"oops"` renders as the error marker. -/
theorem c10_nonobject_config_witness :
    renderOneBlock [("hero", heroTemplate)] 2025 (Block.mk "hero" (some (JsonValue.str "oops")))
      = errMarker "hero" :=
  c10_nonobject_config [("hero", heroTemplate)] 2025
    (Block.mk "hero" (some (JsonValue.str "oops")))
    heroTemplate rfl (Or.inr (Or.inr (Or.inl ⟨"oops", rfl⟩)))
